import Mathlib

/-!
Wishlist backend: service layer and update-wishlist use case

A shallow embedding of

* `pkg/wishlist/errors.go` (the sentinel errors),
* `pkg/wishlist/service/service.go` (the wishlist service over a storage port),
* `http/usecase/wishlists/update_wishlist/update_wishlist.go` (the handler).

Conventions of the embedding:

* a Go `error` is `Option Error` (`none` is `nil`);
* a Go pointer result `*T` is `Option T` (`none` is `nil`);
* the storage port and the handler's service port are records of
  state-passing functions over an arbitrary state type `σ`;
* `time.Now().UTC()` and `uuid.NewString()` are read from the environment,
  so every operation that calls them takes the value read as an argument;
* dereferencing a nil pointer is the outcome `Return.nilDeref`.
-/

set_option autoImplicit false

namespace GoWishlist

/-! ## Errors (`pkg/wishlist/errors.go`) -/

/-- Go `error` values: the four sentinels of `pkg/wishlist/errors.go`, any other
error (identified by its text), and an error wrapping a cause. -/
inductive Error where
  | ErrNotFound
  | ErrItemNotFound
  | ErrBookingNotAvailable
  | ErrItemAlreadyBooked
  | other (msg : String)
  | wrapped (msg : String) (cause : Error)
  deriving DecidableEq, Repr

/-- Go `errors.Is(err, target)`: `err` or some error in its unwrap chain is `target`. -/
def errorsIs : Error → Error → Bool
  | Error.wrapped msg cause, target =>
      decide (Error.wrapped msg cause = target) || errorsIs cause target
  | e, target => decide (e = target)

/-! ## Data model -/

/-- Go `time.Time`, as a number of ticks; the zero value is `0`. -/
abbrev Time := Nat

/-- Go `user.ID`. -/
abbrev UserID := String

/-- Go `wishlist.ID`. -/
abbrev ID := String

/-- Go `wishlist.ItemID`. -/
abbrev ItemID := String

/-- Go `image.ID` (`pkg/image/image.go`). -/
abbrev ImageID := String

/-- Go `wishlist.Wishlist`, with the fields the service and the handler use. -/
structure Wishlist where
  ID : ID
  UserID : UserID
  IsDefault : Bool
  Title : String
  Avatar : Option ImageID
  Description : String
  IsArchived : Bool
  CreatedAt : Time
  UpdatedAt : Time
  deriving DecidableEq, Repr

/-- Go `wishlist.Item`, with the fields the service uses and the parent reference. -/
structure Item where
  ID : ItemID
  WishlistID : GoWishlist.ID
  IsBookingAvailable : Bool
  IsBookedBy : Option UserID
  CreatedAt : Time
  UpdatedAt : Time
  deriving DecidableEq, Repr

/-- The Go zero value of `wishlist.Wishlist`. -/
def Wishlist.zero : Wishlist :=
  { ID := "", UserID := "", IsDefault := false, Title := "", Avatar := none,
    Description := "", IsArchived := false, CreatedAt := 0, UpdatedAt := 0 }

/-! ## Storage port (`service.go`, interface `storage`) -/

/-- The `storage` interface over a state `σ`. A call takes the state before and
gives the results with the state after. -/
structure Storage (σ : Type) where
  Upsert : Wishlist → σ → Option Error × σ
  Get : ID → σ → (Option Wishlist × Option Error) × σ
  GetByUserID : UserID → σ → (List Wishlist × Option Error) × σ
  GetWishlistItems : ID → Nat → Nat → σ → (List Item × Bool × Option Error) × σ
  GetWishlistItemByID : ItemID → σ → (Option Item × Option Error) × σ
  UpsertWishlistItem : Item → σ → Option Error × σ
  DeleteWishlistItem : ItemID → σ → Option Error × σ

/-- How a service method that reads a record and then writes to it ends: it
returns its `error`, or the storage gave a nil record with a nil error and the
method dereferences the nil pointer. -/
inductive Return where
  | returned (err : Option Error)
  | nilDeref
  deriving DecidableEq, Repr

/-! ## Service (`service.go`) -/

namespace Service

variable {σ : Type}

/-- Go `Service.Create`; `newID` is `uuid.NewString()`, `now` is `time.Now().UTC()`. -/
def Create (st : Storage σ) (newID : String) (now : Time) (wishlist : Wishlist) (s : σ) :
    Option Error × σ :=
  let wishlist := if wishlist.ID = "" then { wishlist with ID := newID } else wishlist
  let wishlist := { wishlist with CreatedAt := now }
  let wishlist := { wishlist with UpdatedAt := wishlist.CreatedAt }
  st.Upsert wishlist s

/-- Go `Service.Get`. -/
def Get (st : Storage σ) (id : ID) (s : σ) : (Option Wishlist × Option Error) × σ :=
  st.Get id s

/-- Go `Service.GetByUserID`. -/
def GetByUserID (st : Storage σ) (userID : UserID) (s : σ) :
    (List Wishlist × Option Error) × σ :=
  st.GetByUserID userID s

/-- Go `Service.Update`. -/
def Update (st : Storage σ) (now : Time) (wishlist : Wishlist) (s : σ) : Option Error × σ :=
  let wishlist := { wishlist with UpdatedAt := now }
  st.Upsert wishlist s

/-- Go `Service.Archive`. -/
def Archive (st : Storage σ) (now : Time) (id : ID) (s : σ) : Return × σ :=
  let r := st.Get id s
  match r.1.2 with
  | some err => (Return.returned (some err), r.2)
  | none =>
    match r.1.1 with
    | none => (Return.nilDeref, r.2)
    | some wishlist =>
      let wishlist := { wishlist with IsArchived := true }
      let wishlist := { wishlist with UpdatedAt := now }
      let u := st.Upsert wishlist r.2
      (Return.returned u.1, u.2)

/-- Go `Service.Restore`. -/
def Restore (st : Storage σ) (now : Time) (id : ID) (s : σ) : Return × σ :=
  let r := st.Get id s
  match r.1.2 with
  | some err => (Return.returned (some err), r.2)
  | none =>
    match r.1.1 with
    | none => (Return.nilDeref, r.2)
    | some wishlist =>
      let wishlist := { wishlist with IsArchived := false }
      let wishlist := { wishlist with UpdatedAt := now }
      let u := st.Upsert wishlist r.2
      (Return.returned u.1, u.2)

/-- Go `Service.GetWishlistItem`. -/
def GetWishlistItem (st : Storage σ) (itemID : ItemID) (s : σ) :
    (Option Item × Option Error) × σ :=
  st.GetWishlistItemByID itemID s

/-- Go `Service.GetWishlistItems`. -/
def GetWishlistItems (st : Storage σ) (wishlistID : ID) (limit offset : Nat) (s : σ) :
    (List Item × Bool × Option Error) × σ :=
  st.GetWishlistItems wishlistID limit offset s

/-- Go `Service.AddWishlistItem`. -/
def AddWishlistItem (st : Storage σ) (now : Time) (item : Item) (s : σ) :
    Option Error × σ :=
  let item := { item with CreatedAt := now }
  let item := { item with UpdatedAt := item.CreatedAt }
  st.UpsertWishlistItem item s

/-- Go `Service.RemoveItem`. -/
def RemoveItem (st : Storage σ) (item : ItemID) (s : σ) : Option Error × σ :=
  st.DeleteWishlistItem item s

/-- Go `Service.BookItem`. -/
def BookItem (st : Storage σ) (now : Time) (itemID : ItemID) (userID : UserID) (s : σ) :
    Return × σ :=
  let r := st.GetWishlistItemByID itemID s
  match r.1.2 with
  | some err => (Return.returned (some err), r.2)
  | none =>
    match r.1.1 with
    | none => (Return.nilDeref, r.2)
    | some item =>
      if !item.IsBookingAvailable then
        (Return.returned (some Error.ErrBookingNotAvailable), r.2)
      else if item.IsBookedBy ≠ none ∧ item.IsBookedBy = some userID then
        (Return.returned none, r.2)
      else if item.IsBookedBy ≠ none then
        (Return.returned (some Error.ErrItemAlreadyBooked), r.2)
      else
        let item := { item with IsBookedBy := some userID }
        let item := { item with UpdatedAt := now }
        let u := st.UpsertWishlistItem item r.2
        (Return.returned u.1, u.2)

/-- Go `Service.UnBookItem`. -/
def UnBookItem (st : Storage σ) (now : Time) (itemID : ItemID) (s : σ) : Return × σ :=
  let r := st.GetWishlistItemByID itemID s
  match r.1.2 with
  | some err => (Return.returned (some err), r.2)
  | none =>
    match r.1.1 with
    | none => (Return.nilDeref, r.2)
    | some item =>
      if item.IsBookedBy = none then
        (Return.returned none, r.2)
      else
        let item := { item with IsBookedBy := none }
        let item := { item with UpdatedAt := now }
        let u := st.UpsertWishlistItem item r.2
        (Return.returned u.1, u.2)

end Service

/-! ## Update-wishlist use case (`update_wishlist.go`) -/

/-- The value `authPkg.FromContext` gives; the handler reads its `UserID`. -/
structure Auth where
  UserID : UserID
  deriving DecidableEq, Repr

/-- The `httputil.Error...` kinds the handler uses. -/
inductive ErrorType where
  | ErrorBadAuth
  | ErrorNotFound
  | ErrorBadData
  | ErrorForbidden
  | ErrorInternal
  deriving DecidableEq, Repr

/-- Go `httputil.HandleError`, with the four fields the handler sets (`ErrType` is
the Go field `Type`). A field the handler leaves out has its zero value. -/
structure HandleError where
  ErrType : ErrorType
  ErrorKey : String := ""
  Message : String := ""
  Err : Option GoWishlist.Error := none
  deriving DecidableEq, Repr

/-- Go `httputil.HandleResult`: the handler sets its `Error` or nothing. -/
structure HandleResult where
  Error : Option HandleError := none
  deriving DecidableEq, Repr

/-- Go `types.Wishlist`, the wishlist of the request payload, with the fields the
handler reads. -/
structure types.Wishlist where
  ID : ID
  IsDefault : Bool
  Title : String
  Description : String
  deriving DecidableEq, Repr

/-- Go `requestJson`. -/
structure requestJson where
  Wishlist : types.Wishlist
  deriving DecidableEq, Repr

/-- What the handler reads of the `*http.Request`: the result of
`authPkg.FromContext(r.Context())`, the route variables `mux.Vars(r)`, and the
result of decoding `r.Body` into a `requestJson`. -/
structure Request where
  auth : Option Auth
  vars : List (String × String)
  body : Except GoWishlist.Error requestJson

/-- The `wishlistService` interface of the handler, over a state `σ`. -/
structure wishlistService (σ : Type) where
  Get : ID → σ → (Option Wishlist × Option Error) × σ
  Update : Wishlist → σ → Option Error × σ

section Handler

variable {σ : Type}

/-- Go `isValidWishlistAccess`. -/
def isValidWishlistAccess (wService : wishlistService σ) (wishlistID : String)
    (currentUserID : UserID) (s : σ) : (HandleResult × Bool) × σ :=
  let r := wService.Get wishlistID s
  let err := r.1.2
  if (match err with
      | some e => !errorsIs e Error.ErrNotFound
      | none => false) then
    (({ Error := some { ErrType := ErrorType.ErrorInternal,
                        Message := "Error getting wishlist" } }, false), r.2)
  else
    match r.1.1 with
    | none =>
      (({ Error := some { ErrType := ErrorType.ErrorNotFound,
                          ErrorKey := "not_found",
                          Message := "incorrect path parameter",
                          Err := none } }, false), r.2)
    | some wishlist =>
      if wishlist.UserID ≠ currentUserID then
        (({ Error := some { ErrType := ErrorType.ErrorForbidden,
                            ErrorKey := "forbidden",
                            Message := "you can\x27t remove product from wishlist of another user",
                            Err := none } }, false), r.2)
      else
        (({}, true), r.2)

/-- Go `MakeUpdateWishlistUsecase`: the use case it returns, applied to a request. -/
def MakeUpdateWishlistUsecase (wService : wishlistService σ) (r : Request) (s : σ) :
    HandleResult × σ :=
  match r.auth with
  | none =>
    ({ Error := some { Message := "Unauthorized", ErrType := ErrorType.ErrorBadAuth } }, s)
  | some auth =>
    match r.vars.lookup "id" with
    | none =>
      ({ Error := some { ErrType := ErrorType.ErrorNotFound,
                         ErrorKey := "not_found",
                         Message := "incorrect path parameter",
                         Err := none } }, s)
    | some wishlistID =>
      let a := isValidWishlistAccess wService wishlistID auth.UserID s
      if !a.1.2 then
        (a.1.1, a.2)
      else
        match r.body with
        | Except.error err =>
          ({ Error := some { ErrType := ErrorType.ErrorBadData,
                             Message := "invalid json body",
                             Err := some err } }, a.2)
        | Except.ok request =>
          let wishlist : Wishlist :=
            { Wishlist.zero with
              ID := request.Wishlist.ID,
              IsDefault := request.Wishlist.IsDefault,
              Title := request.Wishlist.Title,
              Avatar := none,
              Description := request.Wishlist.Description }
          let u := wService.Update wishlist a.2
          match u.1 with
          | some err =>
            ({ Error := some { ErrType := ErrorType.ErrorInternal,
                               Message := "Error updating wishlist",
                               Err := some err } }, u.2)
          | none => ({}, u.2)

/-- The service of `service.go` as the handler receives it: `*Service` implements
`wishlistService` by its methods `Get` and `Update`. -/
def Service.aswishlistService (st : Storage σ) (now : Time) : wishlistService σ :=
  { Get := Service.Get st, Update := Service.Update st now }

end Handler

/-! ## Recording the calls made through a port -/

/-- A call on the storage port, with its arguments. -/
inductive StorageCall where
  | Upsert (wishlist : Wishlist)
  | Get (id : ID)
  | GetByUserID (userID : UserID)
  | GetWishlistItems (wishlistID : ID) (limit offset : Nat)
  | GetWishlistItemByID (itemID : ItemID)
  | UpsertWishlistItem (item : Item)
  | DeleteWishlistItem (itemID : ItemID)
  deriving DecidableEq, Repr

/-- Whether a storage call is a write. -/
def StorageCall.isWrite : StorageCall → Bool
  | StorageCall.Upsert _ => true
  | StorageCall.UpsertWishlistItem _ => true
  | StorageCall.DeleteWishlistItem _ => true
  | _ => false

/-- A storage that behaves as `st` and appends every call it receives to a log. -/
def Storage.logged {σ : Type} (st : Storage σ) : Storage (σ × List StorageCall) :=
  { Upsert := fun w s =>
      let r := st.Upsert w s.1
      (r.1, (r.2, s.2 ++ [StorageCall.Upsert w]))
    Get := fun id s =>
      let r := st.Get id s.1
      (r.1, (r.2, s.2 ++ [StorageCall.Get id]))
    GetByUserID := fun u s =>
      let r := st.GetByUserID u s.1
      (r.1, (r.2, s.2 ++ [StorageCall.GetByUserID u]))
    GetWishlistItems := fun id limit offset s =>
      let r := st.GetWishlistItems id limit offset s.1
      (r.1, (r.2, s.2 ++ [StorageCall.GetWishlistItems id limit offset]))
    GetWishlistItemByID := fun id s =>
      let r := st.GetWishlistItemByID id s.1
      (r.1, (r.2, s.2 ++ [StorageCall.GetWishlistItemByID id]))
    UpsertWishlistItem := fun it s =>
      let r := st.UpsertWishlistItem it s.1
      (r.1, (r.2, s.2 ++ [StorageCall.UpsertWishlistItem it]))
    DeleteWishlistItem := fun id s =>
      let r := st.DeleteWishlistItem id s.1
      (r.1, (r.2, s.2 ++ [StorageCall.DeleteWishlistItem id])) }

/-- A call on the handler's service port, with its argument. -/
inductive ServiceCall where
  | Get (id : ID)
  | Update (wishlist : Wishlist)
  deriving DecidableEq, Repr

/-- A service that behaves as `sv` and appends every call it receives to a log. -/
def wishlistService.logged {σ : Type} (sv : wishlistService σ) :
    wishlistService (σ × List ServiceCall) :=
  { Get := fun id s =>
      let r := sv.Get id s.1
      (r.1, (r.2, s.2 ++ [ServiceCall.Get id]))
    Update := fun w s =>
      let r := sv.Update w s.1
      (r.1, (r.2, s.2 ++ [ServiceCall.Update w])) }

/-! ## An in-memory storage -/

/-- The state of the in-memory storage: the stored wishlists and items, the most
recently written first, at most one per identifier. -/
structure MemStore where
  wishlists : List Wishlist
  items : List Item
  deriving DecidableEq, Repr

/-- An in-memory implementation of the storage port: a read gives the record last
upserted under the identifier, or the not-found sentinel; every write succeeds. -/
def memStorage : Storage MemStore :=
  { Upsert := fun w s =>
      (none, { s with wishlists := w :: s.wishlists.filter (fun x => x.ID ≠ w.ID) })
    Get := fun id s =>
      match s.wishlists.find? (fun x => x.ID = id) with
      | some w => ((some w, none), s)
      | none => ((none, some Error.ErrNotFound), s)
    GetByUserID := fun u s => ((s.wishlists.filter (fun x => x.UserID = u), none), s)
    GetWishlistItems := fun id limit offset s =>
      let all := s.items.filter (fun x => x.WishlistID = id)
      ((((all.drop offset).take limit), decide (offset + limit < all.length), none), s)
    GetWishlistItemByID := fun id s =>
      match s.items.find? (fun x => x.ID = id) with
      | some it => ((some it, none), s)
      | none => ((none, some Error.ErrItemNotFound), s)
    UpsertWishlistItem := fun it s =>
      (none, { s with items := it :: s.items.filter (fun x => x.ID ≠ it.ID) })
    DeleteWishlistItem := fun id s =>
      (none, { s with items := s.items.filter (fun x => x.ID ≠ id) }) }

/-! ## Storages that keep what is written -/

/-- A storage keeps wishlists when every `Upsert` succeeds and a `Get` that follows
an `Upsert` gives the record upserted. -/
def Storage.KeepsWishlists {σ : Type} (st : Storage σ) : Prop :=
  (∀ (w : Wishlist) (s : σ), (st.Upsert w s).1 = none) ∧
  (∀ (w : Wishlist) (s : σ), (st.Get w.ID (st.Upsert w s).2).1 = (some w, none))

/-- A storage keeps items when every `UpsertWishlistItem` succeeds, a
`GetWishlistItemByID` that follows an `UpsertWishlistItem` gives the item upserted,
and a read does not change what the next read of the same item gives. -/
def Storage.KeepsItems {σ : Type} (st : Storage σ) : Prop :=
  (∀ (it : Item) (s : σ), (st.UpsertWishlistItem it s).1 = none) ∧
  (∀ (it : Item) (s : σ),
    (st.GetWishlistItemByID it.ID (st.UpsertWishlistItem it s).2).1 = (some it, none)) ∧
  (∀ (id : ItemID) (s : σ),
    (st.GetWishlistItemByID id (st.GetWishlistItemByID id s).2).1
      = (st.GetWishlistItemByID id s).1)

/-! ## Sample data -/

/-- A wishlist of user `alice`. -/
def sampleWishlist : Wishlist :=
  { ID := "w1", UserID := "alice", IsDefault := true, Title := "birthday",
    Avatar := some "img1", Description := "things I like", IsArchived := false,
    CreatedAt := 10, UpdatedAt := 20 }

/-- A wishlist of user `bob`. -/
def otherWishlist : Wishlist :=
  { ID := "w2", UserID := "bob", IsDefault := false, Title := "wedding",
    Avatar := none, Description := "", IsArchived := false,
    CreatedAt := 11, UpdatedAt := 21 }

/-- An item nobody has booked, open for booking. -/
def freeItem : Item :=
  { ID := "i1", WishlistID := "w1", IsBookingAvailable := true, IsBookedBy := none,
    CreatedAt := 12, UpdatedAt := 22 }

/-- An item booked by `u1`, open for booking. -/
def bookedItem : Item :=
  { ID := "i2", WishlistID := "w1", IsBookingAvailable := true, IsBookedBy := some "u1",
    CreatedAt := 13, UpdatedAt := 23 }

/-- An item booked by `u1` whose owner has closed booking. -/
def closedItem : Item :=
  { ID := "i3", WishlistID := "w2", IsBookingAvailable := false, IsBookedBy := some "u1",
    CreatedAt := 14, UpdatedAt := 24 }

/-- An in-memory store holding the sample wishlists and items. -/
def sampleStore : MemStore :=
  { wishlists := [sampleWishlist, otherWishlist],
    items := [freeItem, bookedItem, closedItem] }

/-- A request of `alice` on the path of her wishlist `w1` whose payload carries the
id `w2`, the wishlist of `bob`. -/
def crossRequest : Request :=
  { auth := some { UserID := "alice" },
    vars := [("id", "w1")],
    body := Except.ok
      { Wishlist := { ID := "w2", IsDefault := false, Title := "taken over",
                      Description := "" } } }

/-- A request of `alice` on the path of her wishlist `w1` whose payload carries the
same id `w1` and a new title. -/
def renameRequest : Request :=
  { auth := some { UserID := "alice" },
    vars := [("id", "w1")],
    body := Except.ok
      { Wishlist := { ID := "w1", IsDefault := true, Title := "renamed",
                      Description := "things I like" } } }

/-- A request of `alice` on the path of the wishlist `w2` of `bob`. -/
def foreignRequest : Request :=
  { auth := some { UserID := "alice" },
    vars := [("id", "w2")],
    body := Except.ok
      { Wishlist := { ID := "w2", IsDefault := false, Title := "mine now",
                      Description := "" } } }

/-- A request of `alice` on a path that names no stored wishlist. -/
def missingRequest : Request :=
  { auth := some { UserID := "alice" },
    vars := [("id", "w9")],
    body := Except.ok
      { Wishlist := { ID := "w9", IsDefault := false, Title := "ghost",
                      Description := "" } } }

/-- A request of `alice` whose route has no `id` variable. -/
def noPathRequest : Request :=
  { auth := some { UserID := "alice" },
    vars := [],
    body := Except.error (Error.other "unexpected end of JSON input") }

/-! ## Properties of the in-memory storage -/

theorem memStorage_keepsWishlists : memStorage.KeepsWishlists := by
  refine ⟨fun w s => rfl, fun w s => ?_⟩
  simp [memStorage]

theorem memStorage_keepsItems : memStorage.KeepsItems := by
  refine ⟨fun it s => rfl, fun it s => ?_, fun id s => ?_⟩
  · simp [memStorage]
  · simp only [memStorage]
    cases h : s.items.find? (fun x => decide (x.ID = id)) <;> simp [h]

/-! ## Service: booking -/

/-- C3. Booking gate: when the storage gives an item whose `IsBookingAvailable` is
false, `BookItem` by any user, whatever the item's `IsBookedBy`, returns
`ErrBookingNotAvailable`; the only storage call it makes is the read, and the
storage is left in the state after that read. -/
theorem BookItem_booking_not_available {σ : Type} (st : Storage σ) (now : Time)
    (itemID : ItemID) (userID : UserID) (item : Item) (s : σ) (log : List StorageCall)
    (hget : (st.GetWishlistItemByID itemID s).1 = (some item, none))
    (hgate : item.IsBookingAvailable = false) :
    Service.BookItem st.logged now itemID userID (s, log)
      = (Return.returned (some Error.ErrBookingNotAvailable),
         ((st.GetWishlistItemByID itemID s).2,
          log ++ [StorageCall.GetWishlistItemByID itemID])) := by
  simp [Service.BookItem, Storage.logged, hget, hgate]

theorem BookItem_booking_not_available_witness :
    (memStorage.GetWishlistItemByID "i3" sampleStore).1 = (some closedItem, none) ∧
    closedItem.IsBookingAvailable = false ∧
    Service.BookItem memStorage.logged 30 "i3" "u2" (sampleStore, [])
      = (Return.returned (some Error.ErrBookingNotAvailable),
         ((memStorage.GetWishlistItemByID "i3" sampleStore).2,
          [] ++ [StorageCall.GetWishlistItemByID "i3"])) :=
  ⟨by decide, by decide,
    BookItem_booking_not_available memStorage 30 "i3" "u2" closedItem sampleStore []
      (by decide) (by decide)⟩

/-- C2, as amended. Booking conflict: when the storage gives an item open for
booking (`IsBookingAvailable` true) whose `IsBookedBy` is `u1`, `BookItem` by a
user `u2` different from `u1` returns `ErrItemAlreadyBooked`; the only storage
call it makes is the read, and the storage is left in the state after that read. -/
theorem BookItem_already_booked {σ : Type} (st : Storage σ) (now : Time)
    (itemID : ItemID) (u1 u2 : UserID) (item : Item) (s : σ) (log : List StorageCall)
    (hget : (st.GetWishlistItemByID itemID s).1 = (some item, none))
    (hgate : item.IsBookingAvailable = true)
    (hbooked : item.IsBookedBy = some u1)
    (hne : u2 ≠ u1) :
    Service.BookItem st.logged now itemID u2 (s, log)
      = (Return.returned (some Error.ErrItemAlreadyBooked),
         ((st.GetWishlistItemByID itemID s).2,
          log ++ [StorageCall.GetWishlistItemByID itemID])) := by
  have hne2 : ¬ u1 = u2 := fun h => hne h.symm
  simp [Service.BookItem, Storage.logged, hget, hgate, hbooked, hne2]

theorem BookItem_already_booked_witness :
    (memStorage.GetWishlistItemByID "i2" sampleStore).1 = (some bookedItem, none) ∧
    bookedItem.IsBookingAvailable = true ∧
    bookedItem.IsBookedBy = some "u1" ∧
    "u2" ≠ "u1" ∧
    Service.BookItem memStorage.logged 30 "i2" "u2" (sampleStore, [])
      = (Return.returned (some Error.ErrItemAlreadyBooked),
         ((memStorage.GetWishlistItemByID "i2" sampleStore).2,
          [] ++ [StorageCall.GetWishlistItemByID "i2"])) :=
  ⟨by decide, by decide, by decide, by decide,
    BookItem_already_booked memStorage 30 "i2" "u1" "u2" bookedItem sampleStore []
      (by decide) (by decide) (by decide) (by decide)⟩

/-- C2, counterexample. The stored item `closedItem` is booked by `u1`, and
`BookItem` by `u2`, a different user, does not return `ErrItemAlreadyBooked`: the
item is closed for booking and the call returns `ErrBookingNotAvailable`. -/
theorem BookItem_already_booked_counterexample :
    (memStorage.GetWishlistItemByID "i3" sampleStore).1 = (some closedItem, none) ∧
    closedItem.IsBookedBy = some "u1" ∧
    "u2" ≠ "u1" ∧
    (Service.BookItem memStorage 30 "i3" "u2" sampleStore).1
      = Return.returned (some Error.ErrBookingNotAvailable) ∧
    (Service.BookItem memStorage 30 "i3" "u2" sampleStore).1
      ≠ Return.returned (some Error.ErrItemAlreadyBooked) := by
  decide

/-- The no-op branch of `BookItem`: the item read is open for booking and already
booked by the caller. -/
theorem BookItem_same_user {σ : Type} (st : Storage σ) (now : Time)
    (itemID : ItemID) (userID : UserID) (item : Item) (s : σ) (log : List StorageCall)
    (hget : (st.GetWishlistItemByID itemID s).1 = (some item, none))
    (hgate : item.IsBookingAvailable = true)
    (hsame : item.IsBookedBy = some userID) :
    Service.BookItem st.logged now itemID userID (s, log)
      = (Return.returned none,
         ((st.GetWishlistItemByID itemID s).2,
          log ++ [StorageCall.GetWishlistItemByID itemID])) := by
  simp [Service.BookItem, Storage.logged, hget, hgate, hsame]

/-- The writing branch of `BookItem`: the item read is open for booking and
unbooked. -/
theorem BookItem_unbooked {σ : Type} (st : Storage σ) (now : Time)
    (itemID : ItemID) (userID : UserID) (item : Item) (s : σ) (log : List StorageCall)
    (hget : (st.GetWishlistItemByID itemID s).1 = (some item, none))
    (hgate : item.IsBookingAvailable = true)
    (hnone : item.IsBookedBy = none) :
    Service.BookItem st.logged now itemID userID (s, log)
      = (Return.returned
           (st.UpsertWishlistItem { item with IsBookedBy := some userID, UpdatedAt := now }
              (st.GetWishlistItemByID itemID s).2).1,
         ((st.UpsertWishlistItem { item with IsBookedBy := some userID, UpdatedAt := now }
              (st.GetWishlistItemByID itemID s).2).2,
          log ++ [StorageCall.GetWishlistItemByID itemID,
                  StorageCall.UpsertWishlistItem
                    { item with IsBookedBy := some userID, UpdatedAt := now }])) := by
  simp [Service.BookItem, Storage.logged, hget, hgate, hnone]

/-- C4. Booking idempotence: over a storage that keeps items, for a stored item
open for booking that is unbooked or booked by `userID`, two calls of
`BookItem` for `userID` in a row both return nil; after them the stored item is
the item with `IsBookedBy = userID` that the first call left (the original item
when it was already booked by `userID`, else the item rebooked and stamped with
the time of the first call), the same after the second call as after the first;
the second call makes one storage call, the read, and no write. -/
theorem BookItem_twice {σ : Type} (st : Storage σ) (now1 now2 : Time)
    (userID : UserID) (item : Item) (s : σ) (log : List StorageCall)
    (hkeeps : st.KeepsItems)
    (hget : (st.GetWishlistItemByID item.ID s).1 = (some item, none))
    (hgate : item.IsBookingAvailable = true)
    (hstate : item.IsBookedBy = none ∨ item.IsBookedBy = some userID) :
    (Service.BookItem st.logged now1 item.ID userID (s, log)).1 = Return.returned none ∧
    (Service.BookItem st.logged now2 item.ID userID
      (Service.BookItem st.logged now1 item.ID userID (s, log)).2).1
        = Return.returned none ∧
    (∃ stored : Item,
      stored = (if item.IsBookedBy = some userID then item
                else { item with IsBookedBy := some userID, UpdatedAt := now1 }) ∧
      stored.IsBookedBy = some userID ∧
      (st.GetWishlistItemByID item.ID
        (Service.BookItem st.logged now1 item.ID userID (s, log)).2.1).1
          = (some stored, none) ∧
      (st.GetWishlistItemByID item.ID
        (Service.BookItem st.logged now2 item.ID userID
          (Service.BookItem st.logged now1 item.ID userID (s, log)).2).2.1).1
          = (some stored, none)) ∧
    (Service.BookItem st.logged now2 item.ID userID
      (Service.BookItem st.logged now1 item.ID userID (s, log)).2).2
        = ((st.GetWishlistItemByID item.ID
              (Service.BookItem st.logged now1 item.ID userID (s, log)).2.1).2,
           (Service.BookItem st.logged now1 item.ID userID (s, log)).2.2
              ++ [StorageCall.GetWishlistItemByID item.ID]) := by
  obtain ⟨hok, hgu, hgg⟩ := hkeeps
  rcases hstate with hnone | hsame
  · -- unbooked: the first call writes, the second finds the item booked by the caller
    have hne : ¬ item.IsBookedBy = some userID := by simp [hnone]
    have hfirst := BookItem_unbooked st now1 item.ID userID item s log hget hgate hnone
    rw [hok] at hfirst
    have hread : (st.GetWishlistItemByID item.ID
        (Service.BookItem st.logged now1 item.ID userID (s, log)).2.1).1
          = (some { item with IsBookedBy := some userID, UpdatedAt := now1 }, none) := by
      rw [hfirst]
      exact hgu { item with IsBookedBy := some userID, UpdatedAt := now1 } _
    have hsecond := BookItem_same_user st now2 item.ID userID _
      (Service.BookItem st.logged now1 item.ID userID (s, log)).2.1
      (Service.BookItem st.logged now1 item.ID userID (s, log)).2.2 hread hgate rfl
    refine ⟨by rw [hfirst], by rw [hsecond], ⟨_, rfl, ?_, ?_, ?_⟩, by rw [hsecond]⟩
    · simp [hne]
    · rw [if_neg hne]; exact hread
    · rw [hsecond, if_neg hne]
      show (st.GetWishlistItemByID item.ID (st.GetWishlistItemByID item.ID _).2).1 = _
      rw [hgg]; exact hread
  · -- already booked by the caller: neither call writes
    have hfirst := BookItem_same_user st now1 item.ID userID item s log hget hgate hsame
    have hread : (st.GetWishlistItemByID item.ID
        (Service.BookItem st.logged now1 item.ID userID (s, log)).2.1).1
          = (some item, none) := by
      rw [hfirst]
      show (st.GetWishlistItemByID item.ID (st.GetWishlistItemByID item.ID s).2).1 = _
      rw [hgg, hget]
    have hsecond := BookItem_same_user st now2 item.ID userID _
      (Service.BookItem st.logged now1 item.ID userID (s, log)).2.1
      (Service.BookItem st.logged now1 item.ID userID (s, log)).2.2 hread hgate hsame
    refine ⟨by rw [hfirst], by rw [hsecond], ⟨_, rfl, ?_, ?_, ?_⟩, by rw [hsecond]⟩
    · simp [hsame]
    · rw [if_pos hsame]; exact hread
    · rw [hsecond, if_pos hsame]
      show (st.GetWishlistItemByID item.ID (st.GetWishlistItemByID item.ID _).2).1 = _
      rw [hgg]; exact hread

theorem BookItem_twice_witness :
    memStorage.KeepsItems ∧
    (memStorage.GetWishlistItemByID freeItem.ID sampleStore).1 = (some freeItem, none) ∧
    freeItem.IsBookingAvailable = true ∧
    (freeItem.IsBookedBy = none ∨ freeItem.IsBookedBy = some "u2") ∧
    (Service.BookItem memStorage.logged 30 freeItem.ID "u2" (sampleStore, [])).1
      = Return.returned none ∧
    (Service.BookItem memStorage.logged 31 freeItem.ID "u2"
      (Service.BookItem memStorage.logged 30 freeItem.ID "u2" (sampleStore, [])).2).1
        = Return.returned none ∧
    (∃ stored : Item,
      stored = (if freeItem.IsBookedBy = some "u2" then freeItem
                else { freeItem with IsBookedBy := some "u2", UpdatedAt := 30 }) ∧
      stored.IsBookedBy = some "u2" ∧
      (memStorage.GetWishlistItemByID freeItem.ID
        (Service.BookItem memStorage.logged 30 freeItem.ID "u2" (sampleStore, [])).2.1).1
          = (some stored, none) ∧
      (memStorage.GetWishlistItemByID freeItem.ID
        (Service.BookItem memStorage.logged 31 freeItem.ID "u2"
          (Service.BookItem memStorage.logged 30 freeItem.ID "u2" (sampleStore, [])).2).2.1).1
          = (some stored, none)) ∧
    (Service.BookItem memStorage.logged 31 freeItem.ID "u2"
      (Service.BookItem memStorage.logged 30 freeItem.ID "u2" (sampleStore, [])).2).2
        = ((memStorage.GetWishlistItemByID freeItem.ID
              (Service.BookItem memStorage.logged 30 freeItem.ID "u2" (sampleStore, [])).2.1).2,
           (Service.BookItem memStorage.logged 30 freeItem.ID "u2" (sampleStore, [])).2.2
              ++ [StorageCall.GetWishlistItemByID freeItem.ID]) :=
  ⟨memStorage_keepsItems, by decide, by decide, Or.inl (by decide),
    BookItem_twice memStorage 30 31 "u2" freeItem sampleStore []
      memStorage_keepsItems (by decide) (by decide) (Or.inl (by decide))⟩

/-! ## Service: unbooking -/

/-- C8. For an item the storage gives: when its `IsBookedBy` is nil, `UnBookItem`
returns nil and its only storage call is the read; when it is booked by a user
(whatever `IsBookingAvailable` is), `UnBookItem` makes one write after the read,
of the item with `IsBookedBy` nil and `UpdatedAt` the current time and every
other field as read, and returns what that write returns. -/
theorem UnBookItem_spec {σ : Type} (st : Storage σ) (now : Time)
    (itemID : ItemID) (item : Item) (s : σ) (log : List StorageCall)
    (hget : (st.GetWishlistItemByID itemID s).1 = (some item, none)) :
    (item.IsBookedBy = none →
      Service.UnBookItem st.logged now itemID (s, log)
        = (Return.returned none,
           ((st.GetWishlistItemByID itemID s).2,
            log ++ [StorageCall.GetWishlistItemByID itemID]))) ∧
    (∀ u : UserID, item.IsBookedBy = some u →
      Service.UnBookItem st.logged now itemID (s, log)
        = (Return.returned
             (st.UpsertWishlistItem
                { ID := item.ID, WishlistID := item.WishlistID,
                  IsBookingAvailable := item.IsBookingAvailable, IsBookedBy := none,
                  CreatedAt := item.CreatedAt, UpdatedAt := now }
                (st.GetWishlistItemByID itemID s).2).1,
           ((st.UpsertWishlistItem
                { ID := item.ID, WishlistID := item.WishlistID,
                  IsBookingAvailable := item.IsBookingAvailable, IsBookedBy := none,
                  CreatedAt := item.CreatedAt, UpdatedAt := now }
                (st.GetWishlistItemByID itemID s).2).2,
            log ++ [StorageCall.GetWishlistItemByID itemID,
                    StorageCall.UpsertWishlistItem
                      { ID := item.ID, WishlistID := item.WishlistID,
                        IsBookingAvailable := item.IsBookingAvailable, IsBookedBy := none,
                        CreatedAt := item.CreatedAt, UpdatedAt := now }]))) := by
  refine ⟨fun hnone => ?_, fun u hu => ?_⟩
  · simp [Service.UnBookItem, Storage.logged, hget, hnone]
  · simp [Service.UnBookItem, Storage.logged, hget, hu]

theorem UnBookItem_spec_witness :
    (memStorage.GetWishlistItemByID "i3" sampleStore).1 = (some closedItem, none) ∧
    closedItem.IsBookedBy = some "u1" ∧
    Service.UnBookItem memStorage.logged 40 "i3" (sampleStore, [])
      = (Return.returned none,
         ({ wishlists := [sampleWishlist, otherWishlist],
            items := [{ closedItem with IsBookedBy := none, UpdatedAt := 40 },
                      freeItem, bookedItem] },
          [StorageCall.GetWishlistItemByID "i3",
           StorageCall.UpsertWishlistItem
             { closedItem with IsBookedBy := none, UpdatedAt := 40 }])) :=
  ⟨by decide, by decide,
    ((UnBookItem_spec memStorage 40 "i3" closedItem sampleStore [] (by decide)).2
      "u1" (by decide)).trans (by decide)⟩

/-! ## Service: wishlists -/

/-- What `Archive` does when the storage gives a wishlist. -/
theorem Archive_found {σ : Type} (st : Storage σ) (now : Time) (id : ID)
    (w : Wishlist) (s : σ) (hget : (st.Get id s).1 = (some w, none)) :
    Service.Archive st now id s
      = (Return.returned
           (st.Upsert { w with IsArchived := true, UpdatedAt := now } (st.Get id s).2).1,
         (st.Upsert { w with IsArchived := true, UpdatedAt := now } (st.Get id s).2).2) := by
  simp [Service.Archive, hget]

/-- What `Restore` does when the storage gives a wishlist. -/
theorem Restore_found {σ : Type} (st : Storage σ) (now : Time) (id : ID)
    (w : Wishlist) (s : σ) (hget : (st.Get id s).1 = (some w, none)) :
    Service.Restore st now id s
      = (Return.returned
           (st.Upsert { w with IsArchived := false, UpdatedAt := now } (st.Get id s).2).1,
         (st.Upsert { w with IsArchived := false, UpdatedAt := now } (st.Get id s).2).2) := by
  simp [Service.Restore, hget]

/-- C6. Over a storage that keeps wishlists, for a stored wishlist `w`,
`Archive w.ID` followed by `Restore w.ID` both return nil and leave stored, under
`w.ID`, the record with `IsArchived = false`, `UpdatedAt` the time of the
`Restore`, and every other field equal to the field of `w`. -/
theorem Archive_then_Restore {σ : Type} (st : Storage σ) (now1 now2 : Time)
    (w : Wishlist) (s : σ)
    (hkeeps : st.KeepsWishlists)
    (hget : (st.Get w.ID s).1 = (some w, none)) :
    (Service.Archive st now1 w.ID s).1 = Return.returned none ∧
    (Service.Restore st now2 w.ID (Service.Archive st now1 w.ID s).2).1
      = Return.returned none ∧
    (st.Get w.ID (Service.Restore st now2 w.ID (Service.Archive st now1 w.ID s).2).2).1
      = (some { ID := w.ID, UserID := w.UserID, IsDefault := w.IsDefault,
                Title := w.Title, Avatar := w.Avatar, Description := w.Description,
                IsArchived := false, CreatedAt := w.CreatedAt, UpdatedAt := now2 },
         none) := by
  obtain ⟨hok, hgu⟩ := hkeeps
  have harch := Archive_found st now1 w.ID w s hget
  rw [hok] at harch
  have hread : (st.Get w.ID (Service.Archive st now1 w.ID s).2).1
      = (some { w with IsArchived := true, UpdatedAt := now1 }, none) := by
    rw [harch]
    exact hgu { w with IsArchived := true, UpdatedAt := now1 } _
  have hrest := Restore_found st now2 w.ID _ (Service.Archive st now1 w.ID s).2 hread
  rw [hok] at hrest
  refine ⟨by rw [harch], by rw [hrest], ?_⟩
  rw [hrest]
  exact hgu { ID := w.ID, UserID := w.UserID, IsDefault := w.IsDefault,
              Title := w.Title, Avatar := w.Avatar, Description := w.Description,
              IsArchived := false, CreatedAt := w.CreatedAt, UpdatedAt := now2 } _

theorem Archive_then_Restore_witness :
    memStorage.KeepsWishlists ∧
    (memStorage.Get sampleWishlist.ID sampleStore).1 = (some sampleWishlist, none) ∧
    (Service.Archive memStorage 50 sampleWishlist.ID sampleStore).1
      = Return.returned none ∧
    (Service.Restore memStorage 60 sampleWishlist.ID
      (Service.Archive memStorage 50 sampleWishlist.ID sampleStore).2).1
        = Return.returned none ∧
    (memStorage.Get sampleWishlist.ID
      (Service.Restore memStorage 60 sampleWishlist.ID
        (Service.Archive memStorage 50 sampleWishlist.ID sampleStore).2).2).1
      = (some { ID := sampleWishlist.ID, UserID := sampleWishlist.UserID,
                IsDefault := sampleWishlist.IsDefault, Title := sampleWishlist.Title,
                Avatar := sampleWishlist.Avatar,
                Description := sampleWishlist.Description,
                IsArchived := false, CreatedAt := sampleWishlist.CreatedAt,
                UpdatedAt := 60 },
         none) :=
  ⟨memStorage_keepsWishlists, by decide,
    Archive_then_Restore memStorage 50 60 sampleWishlist sampleStore
      memStorage_keepsWishlists (by decide)⟩

/-- C7. `Create` makes one storage call, an `Upsert`; when the ID generator gives
a non-empty string, the record upserted has the ID of the wishlist passed in if
that ID is non-empty, and otherwise has the generated ID, which is non-empty. -/
theorem Create_ID {σ : Type} (st : Storage σ) (newID : String) (now : Time)
    (w : Wishlist) (s : σ) (log : List StorageCall)
    (hgen : newID ≠ "") :
    ∃ record : Wishlist,
      (Service.Create st.logged newID now w (s, log)).2.2
        = log ++ [StorageCall.Upsert record] ∧
      (w.ID ≠ "" → record.ID = w.ID) ∧
      (w.ID = "" → record.ID = newID ∧ record.ID ≠ "") := by
  by_cases h : w.ID = ""
  · exact ⟨{ w with ID := newID, CreatedAt := now, UpdatedAt := now },
      by simp [Service.Create, Storage.logged, h],
      fun h2 => absurd h h2, fun _ => ⟨rfl, hgen⟩⟩
  · exact ⟨{ w with CreatedAt := now, UpdatedAt := now },
      by simp [Service.Create, Storage.logged, h],
      fun _ => rfl, fun h2 => absurd h2 h⟩

theorem Create_ID_witness :
    "generated-id" ≠ "" ∧
    ∃ record : Wishlist,
      (Service.Create memStorage.logged "generated-id" 70
          { sampleWishlist with ID := "" } (sampleStore, [])).2.2
        = [] ++ [StorageCall.Upsert record] ∧
      (({ sampleWishlist with ID := "" } : Wishlist).ID ≠ "" →
        record.ID = ({ sampleWishlist with ID := "" } : Wishlist).ID) ∧
      (({ sampleWishlist with ID := "" } : Wishlist).ID = "" →
        record.ID = "generated-id" ∧ record.ID ≠ "") :=
  ⟨by decide,
    Create_ID memStorage "generated-id" 70 { sampleWishlist with ID := "" }
      sampleStore [] (by decide)⟩

/-! ## Update-wishlist use case -/

/-- What the handler does with a request that passes authentication, the ownership
check on the path identifier and payload decoding: it calls `Get` with the path
identifier and then `Update` with a record built from the payload alone, whose
other fields are zero. -/
theorem MakeUpdateWishlistUsecase_calls {σ : Type} (sv : wishlistService σ)
    (r : Request) (s : σ) (log : List ServiceCall)
    (auth : Auth) (wishlistID : String) (w : Wishlist) (e : Option Error)
    (request : requestJson)
    (hauth : r.auth = some auth)
    (hpath : r.vars.lookup "id" = some wishlistID)
    (hget : (sv.Get wishlistID s).1 = (some w, e))
    (he : ∀ x, e = some x → errorsIs x Error.ErrNotFound = true)
    (hown : w.UserID = auth.UserID)
    (hbody : r.body = Except.ok request) :
    (MakeUpdateWishlistUsecase sv.logged r (s, log)).2.2
      = log ++ [ServiceCall.Get wishlistID,
                ServiceCall.Update
                  { ID := request.Wishlist.ID, UserID := "",
                    IsDefault := request.Wishlist.IsDefault,
                    Title := request.Wishlist.Title, Avatar := none,
                    Description := request.Wishlist.Description,
                    IsArchived := false, CreatedAt := 0, UpdatedAt := 0 }] := by
  have hnf : ∀ x, e = some x → (!errorsIs x Error.ErrNotFound) = false :=
    fun x hx => by simp [he x hx]
  cases e with
  | none =>
    simp only [MakeUpdateWishlistUsecase, isValidWishlistAccess, wishlistService.logged,
      hauth, hpath, hget, hbody, hown, Wishlist.zero]
    simp only [ne_eq, not_true_eq_false, Bool.false_eq_true, if_false, Bool.not_true]
    split <;> simp
  | some x =>
    simp only [MakeUpdateWishlistUsecase, isValidWishlistAccess, wishlistService.logged,
      hauth, hpath, hget, hbody, hown, Wishlist.zero, hnf x rfl]
    simp only [ne_eq, not_true_eq_false, Bool.false_eq_true, if_false, Bool.not_true]
    split <;> simp

/-- C5. For a request of an authenticated principal on a path identifier for which
`Get` gives a wishlist (with no error other than not-found) whose owner is not
the principal, the result carries the `Forbidden` error, whatever the body; the
only service call is the `Get`, so `Update` is not called. -/
theorem MakeUpdateWishlistUsecase_forbidden {σ : Type} (sv : wishlistService σ)
    (r : Request) (s : σ) (log : List ServiceCall)
    (auth : Auth) (wishlistID : String) (w : Wishlist) (e : Option Error)
    (hauth : r.auth = some auth)
    (hpath : r.vars.lookup "id" = some wishlistID)
    (hget : (sv.Get wishlistID s).1 = (some w, e))
    (he : ∀ x, e = some x → errorsIs x Error.ErrNotFound = true)
    (hown : w.UserID ≠ auth.UserID) :
    MakeUpdateWishlistUsecase sv.logged r (s, log)
      = ({ Error := some { ErrType := ErrorType.ErrorForbidden,
                           ErrorKey := "forbidden",
                           Message := "you can\x27t remove product from wishlist of another user",
                           Err := none } },
         ((sv.Get wishlistID s).2, log ++ [ServiceCall.Get wishlistID])) := by
  cases e with
  | none =>
    simp [MakeUpdateWishlistUsecase, isValidWishlistAccess, wishlistService.logged,
      hauth, hpath, hget, hown]
  | some x =>
    simp [MakeUpdateWishlistUsecase, isValidWishlistAccess, wishlistService.logged,
      hauth, hpath, hget, hown, he x rfl]

theorem MakeUpdateWishlistUsecase_forbidden_witness :
    foreignRequest.auth = some { UserID := "alice" } ∧
    foreignRequest.vars.lookup "id" = some "w2" ∧
    ((Service.aswishlistService memStorage 80).Get "w2" sampleStore).1
      = (some otherWishlist, none) ∧
    otherWishlist.UserID ≠ "alice" ∧
    MakeUpdateWishlistUsecase (Service.aswishlistService memStorage 80).logged
        foreignRequest (sampleStore, [])
      = ({ Error := some { ErrType := ErrorType.ErrorForbidden,
                           ErrorKey := "forbidden",
                           Message := "you can\x27t remove product from wishlist of another user",
                           Err := none } },
         (((Service.aswishlistService memStorage 80).Get "w2" sampleStore).2,
          [] ++ [ServiceCall.Get "w2"])) :=
  ⟨by decide, by decide, by decide, by decide,
    MakeUpdateWishlistUsecase_forbidden (Service.aswishlistService memStorage 80)
      foreignRequest sampleStore [] { UserID := "alice" } "w2" otherWishlist none
      (by decide) (by decide) (by decide) (fun x hx => nomatch hx) (by decide)⟩

/-- C9. For an authenticated request on a path identifier for which `Get` gives no
record and the not-found sentinel (or an error that wraps it), the result
carries the `NotFound` error with key `not_found`, message
`incorrect path parameter` and no cause; the only service call is the `Get`, so
`Update` is not called; and every authenticated request whose route has no `id`
variable gets the same result value. -/
theorem MakeUpdateWishlistUsecase_not_found {σ : Type} (sv : wishlistService σ)
    (r : Request) (s : σ) (log : List ServiceCall)
    (auth : Auth) (wishlistID : String) (e : Error)
    (hauth : r.auth = some auth)
    (hpath : r.vars.lookup "id" = some wishlistID)
    (hget : (sv.Get wishlistID s).1 = (none, some e))
    (he : errorsIs e Error.ErrNotFound = true) :
    MakeUpdateWishlistUsecase sv.logged r (s, log)
      = ({ Error := some { ErrType := ErrorType.ErrorNotFound,
                           ErrorKey := "not_found",
                           Message := "incorrect path parameter",
                           Err := none } },
         ((sv.Get wishlistID s).2, log ++ [ServiceCall.Get wishlistID])) ∧
    ∀ (τ : Type) (sv2 : wishlistService τ) (r2 : Request) (s2 : τ) (auth2 : Auth),
      r2.auth = some auth2 → r2.vars.lookup "id" = none →
      (MakeUpdateWishlistUsecase sv2 r2 s2).1
        = (MakeUpdateWishlistUsecase sv.logged r (s, log)).1 := by
  have hmain : MakeUpdateWishlistUsecase sv.logged r (s, log)
      = ({ Error := some { ErrType := ErrorType.ErrorNotFound,
                           ErrorKey := "not_found",
                           Message := "incorrect path parameter",
                           Err := none } },
         ((sv.Get wishlistID s).2, log ++ [ServiceCall.Get wishlistID])) := by
    simp [MakeUpdateWishlistUsecase, isValidWishlistAccess, wishlistService.logged,
      hauth, hpath, hget, he]
  refine ⟨hmain, fun τ sv2 r2 s2 auth2 hauth2 hpath2 => ?_⟩
  rw [hmain]
  simp [MakeUpdateWishlistUsecase, hauth2, hpath2]

theorem MakeUpdateWishlistUsecase_not_found_witness :
    missingRequest.auth = some { UserID := "alice" } ∧
    missingRequest.vars.lookup "id" = some "w9" ∧
    ((Service.aswishlistService memStorage 80).Get "w9" sampleStore).1
      = (none, some Error.ErrNotFound) ∧
    errorsIs Error.ErrNotFound Error.ErrNotFound = true ∧
    (MakeUpdateWishlistUsecase (Service.aswishlistService memStorage 80).logged
        missingRequest (sampleStore, [])).2.2 = [ServiceCall.Get "w9"] ∧
    (MakeUpdateWishlistUsecase (Service.aswishlistService memStorage 80) noPathRequest
        sampleStore).1
      = (MakeUpdateWishlistUsecase (Service.aswishlistService memStorage 80).logged
          missingRequest (sampleStore, [])).1 :=
  ⟨by decide, by decide, by decide, by decide, by decide,
    (MakeUpdateWishlistUsecase_not_found (Service.aswishlistService memStorage 80)
      missingRequest sampleStore [] { UserID := "alice" } "w9" Error.ErrNotFound
      (by decide) (by decide) (by decide) (by decide)).2
      MemStore (Service.aswishlistService memStorage 80) noPathRequest sampleStore
      { UserID := "alice" } (by decide) (by decide)⟩

/-- C1, the code at a failing input. `alice` owns `w1` and `bob` owns `w2`. The
request of `alice` on the path of `w1` with a payload carrying the id `w2` passes
authentication, the ownership check (made with `Get "w1"`) and decoding, and
succeeds; the record passed to `Update` has the ID `w2` of the payload, not the
ID `w1` of the path; over the in-memory storage the wishlist `w2` of `bob` is
overwritten and `w1` is left as it was. -/
theorem MakeUpdateWishlistUsecase_record_ID_from_payload :
    crossRequest.vars.lookup "id" = some "w1" ∧
    (memStorage.Get "w1" sampleStore).1 = (some sampleWishlist, none) ∧
    sampleWishlist.UserID = "alice" ∧
    (memStorage.Get "w2" sampleStore).1 = (some otherWishlist, none) ∧
    otherWishlist.UserID = "bob" ∧
    (MakeUpdateWishlistUsecase (Service.aswishlistService memStorage 80).logged
        crossRequest (sampleStore, [])).1 = { Error := none } ∧
    (MakeUpdateWishlistUsecase (Service.aswishlistService memStorage 80).logged
        crossRequest (sampleStore, [])).2.2
      = [ServiceCall.Get "w1",
         ServiceCall.Update
           { ID := "w2", UserID := "", IsDefault := false, Title := "taken over",
             Avatar := none, Description := "", IsArchived := false,
             CreatedAt := 0, UpdatedAt := 0 }] ∧
    (memStorage.Get "w2"
        (MakeUpdateWishlistUsecase (Service.aswishlistService memStorage 80).logged
          crossRequest (sampleStore, [])).2.1).1
      = (some { ID := "w2", UserID := "", IsDefault := false, Title := "taken over",
                Avatar := none, Description := "", IsArchived := false,
                CreatedAt := 0, UpdatedAt := 80 }, none) ∧
    (memStorage.Get "w1"
        (MakeUpdateWishlistUsecase (Service.aswishlistService memStorage 80).logged
          crossRequest (sampleStore, [])).2.1).1
      = (some sampleWishlist, none) := by
  decide

/-- C10, the code at a failing input. `alice` owns `w1`. Her request on the path
of `w1` with a payload carrying the same id reaches `Update` and succeeds; the
record passed to `Update` has the zero `UserID`, not `alice`; over the in-memory
storage the stored wishlist `w1` then has the empty owner, and the same request
sent again is answered `Forbidden`. -/
theorem MakeUpdateWishlistUsecase_record_UserID_zero :
    renameRequest.auth = some { UserID := "alice" } ∧
    (memStorage.Get "w1" sampleStore).1 = (some sampleWishlist, none) ∧
    sampleWishlist.UserID = "alice" ∧
    (MakeUpdateWishlistUsecase (Service.aswishlistService memStorage 80).logged
        renameRequest (sampleStore, [])).1 = { Error := none } ∧
    (MakeUpdateWishlistUsecase (Service.aswishlistService memStorage 80).logged
        renameRequest (sampleStore, [])).2.2
      = [ServiceCall.Get "w1",
         ServiceCall.Update
           { ID := "w1", UserID := "", IsDefault := true, Title := "renamed",
             Avatar := none, Description := "things I like", IsArchived := false,
             CreatedAt := 0, UpdatedAt := 0 }] ∧
    (memStorage.Get "w1"
        (MakeUpdateWishlistUsecase (Service.aswishlistService memStorage 80).logged
          renameRequest (sampleStore, [])).2.1).1
      = (some { ID := "w1", UserID := "", IsDefault := true, Title := "renamed",
                Avatar := none, Description := "things I like", IsArchived := false,
                CreatedAt := 0, UpdatedAt := 80 }, none) ∧
    (MakeUpdateWishlistUsecase (Service.aswishlistService memStorage 90) renameRequest
        (MakeUpdateWishlistUsecase (Service.aswishlistService memStorage 80).logged
          renameRequest (sampleStore, [])).2.1).1
      = { Error := some { ErrType := ErrorType.ErrorForbidden,
                          ErrorKey := "forbidden",
                          Message := "you can\x27t remove product from wishlist of another user",
                          Err := none } } := by
  decide

end GoWishlist
